import Mathlib

/-!
Shallow embedding of `src/server/hostapp/src-tauri/icons/update-icon.py`.

The script shells out to the macOS `sips` image-resize tool once per entry of
a fixed size table, checking the exit status of each call.  The filesystem and
the external tool are modelled as an environment record; running the script
produces a boolean (resp. an exit code) together with a trace of observable
events: lines printed to standard output and invocations of the external tool.
-/

namespace UpdateIcon

/-- Result of `subprocess.run(cmd, capture_output=True, text=True)`:
the child's exit status and its captured output streams. -/
structure RunResult where
  returncode : Int
  stdout : String
  stderr : String
deriving Repr, DecidableEq

/-- Observable events of a run: a line printed to standard output, or an
invocation of the external resize tool with the given argument vector. -/
inductive Event where
  | print (line : String)
  | invoke (cmd : List String)
deriving Repr, DecidableEq

/-- The environment the script runs in: `pathExists` models
`os.path.exists`, and `run k cmd` models the result of the `k`-th
(0-indexed) `subprocess.run` call in the process, executed with argument
vector `cmd`. -/
structure Env where
  pathExists : String → Bool
  run : Nat → List String → RunResult

/-- The fixed size table of `generate_icons`:
`(width, height, output)` triples, in source order. -/
def sizes : List (Nat × Nat × String) :=
  [(512, 512, "icon.png"),
   (256, 256, "128x128@2x.png"),
   (128, 128, "128x128.png"),
   (32, 32, "32x32.png")]

/-- The argument vector built in the loop body:
`["sips", "-z", str(height), str(width), source_file, "--out", output]`. -/
def sipsCmd (source_file : String) (width height : Nat) (output : String) :
    List String :=
  ["sips", "-z", toString height, toString width, source_file, "--out", output]

/-- The `for width, height, output in sizes:` loop of `generate_icons`.
`idx` counts the tool invocations already performed, so that `env.run`
sees the invocation index.  Returns the loop's boolean outcome and the
events it emitted. -/
def iconLoop (env : Env) (source_file : String) :
    List (Nat × Nat × String) → Nat → Bool × List Event
  | [], _ => (true, [])
  | (width, height, output) :: rest, idx =>
    let cmd := sipsCmd source_file width height output
    let result := env.run idx cmd
    if result.returncode ≠ 0 then
      (false,
       [Event.invoke cmd,
        Event.print ("Error generating " ++ output ++ ": " ++ result.stderr)])
    else
      let next := iconLoop env source_file rest (idx + 1)
      (next.1,
       Event.invoke cmd ::
       Event.print ("✓ Generated " ++ output ++ " (" ++ toString width ++
         "x" ++ toString height ++ ")") ::
       next.2)

/-- `generate_icons(source_file)`: existence check, then the loop over the
fixed size table.  Returns the boolean result of the Python function
together with the trace of events. -/
def generate_icons (env : Env) (source_file : String) : Bool × List Event :=
  if env.pathExists source_file then
    let body := iconLoop env source_file sizes 0
    (body.1,
     Event.print ("Generating icons from " ++ source_file ++ "...") :: body.2)
  else
    (false,
     [Event.print ("Error: Source file \x27" ++ source_file ++
       "\x27 not found")])

/-- The two usage lines printed by the `__main__` block on a wrong
argument count. -/
def usageLines : List Event :=
  [Event.print "Usage: python3 update-icon.py <source-icon-file>",
   Event.print "Source icon should be at least 512x512 pixels"]

/-- The `if __name__ == "__main__":` block.  `argv` is the full `sys.argv`
(program name included, so exactly one positional argument means
`argv.length = 2`).  Returns the process exit status and the trace:
`sys.exit(1)` on a wrong argument count or on failure, falling off the end
(exit status 0) on success. -/
def mainBlock (env : Env) (argv : List String) : Nat × List Event :=
  if argv.length ≠ 2 then
    (1, usageLines)
  else
    let source := argv.getD 1 ""
    let gen := generate_icons env source
    if gen.1 then
      (0, gen.2 ++
        [Event.print "\nIcon generation complete!",
         Event.print "The Tauri app will use the new icons on next build."])
    else
      (1, gen.2 ++ [Event.print "\nIcon generation failed!"])

/-- The tool invocations of a trace, in order. -/
def invokes (evs : List Event) : List (List String) :=
  evs.filterMap fun e =>
    match e with
    | Event.invoke c => some c
    | Event.print _ => none

/-- An environment whose filesystem has every path and whose tool always
exits with status 0. -/
def envOk : Env :=
  { pathExists := fun _ => true, run := fun _ _ => ⟨0, "", ""⟩ }

/-- An environment whose filesystem has every path and whose tool exits
with status 1 and diagnostic "boom" on its second invocation (index 1),
succeeding otherwise. -/
def envFail2 : Env :=
  { pathExists := fun _ => true,
    run := fun k _ => if k = 1 then ⟨1, "", "boom"⟩ else ⟨0, "", ""⟩ }

/-- An environment whose filesystem has no paths. -/
def envMissing : Env :=
  { pathExists := fun _ => false, run := fun _ _ => ⟨0, "", ""⟩ }

/-- Every tool invocation in an `iconLoop` trace is the `sips` command of
some entry of the remaining size list. -/
theorem iconLoop_invoke_mem (env : Env) (s : String) :
    ∀ (l : List (Nat × Nat × String)) (idx : Nat) (c : List String),
      c ∈ invokes (iconLoop env s l idx).2 →
      ∃ w h out, (w, h, out) ∈ l ∧ c = sipsCmd s w h out := by
  intro l
  induction l with
  | nil => intro idx c hc; simp [iconLoop, invokes] at hc
  | cons hd tl ih =>
    obtain ⟨w, h, out⟩ := hd
    intro idx c hc
    by_cases hr : (env.run idx (sipsCmd s w h out)).returncode ≠ 0
    · simp [iconLoop, hr, invokes] at hc
      exact ⟨w, h, out, by simp, hc⟩
    · simp [iconLoop, hr, invokes] at hc
      rcases hc with rfl | hc
      · exact ⟨w, h, out, by simp, rfl⟩
      · obtain ⟨w2, h2, o2, hmem, hceq⟩ :=
          ih (idx + 1) c (by simpa [invokes] using hc)
        exact ⟨w2, h2, o2, by simp [hmem], hceq⟩

/-- Every tool invocation in a `generate_icons` trace is the `sips`
command of some entry of `sizes`. -/
theorem generate_invoke_shape (env : Env) (source : String) (c : List String)
    (hc : c ∈ invokes (generate_icons env source).2) :
    ∃ w h out, (w, h, out) ∈ sizes ∧ c = sipsCmd source w h out := by
  by_cases hex : env.pathExists source
  · have hc' : c ∈ invokes (iconLoop env source sizes 0).2 := by
      simpa [generate_icons, hex, invokes] using hc
    exact iconLoop_invoke_mem env source sizes 0 c hc'
  · simp [generate_icons, hex, invokes] at hc

/-- C1: for every existing source path, if every invocation of the external
resize tool exits with status 0, `generate_icons` returns `true` and the
trace holds exactly 4 tool invocations, one per entry of the fixed size
table, in table order, each naming the corresponding output file. -/
theorem generate_icons_all_success (env : Env) (source : String)
    (hex : env.pathExists source = true)
    (hrun : ∀ k cmd, (env.run k cmd).returncode = 0) :
    (generate_icons env source).1 = true ∧
    invokes (generate_icons env source).2 =
      [sipsCmd source 512 512 "icon.png",
       sipsCmd source 256 256 "128x128@2x.png",
       sipsCmd source 128 128 "128x128.png",
       sipsCmd source 32 32 "32x32.png"] := by
  simp [generate_icons, iconLoop, sizes, invokes, hex, hrun]

/-- Witness for C1: the always-succeeding environment on a concrete source. -/
theorem generate_icons_all_success_witness :
    (generate_icons envOk "src.png").1 = true ∧
    invokes (generate_icons envOk "src.png").2 =
      [sipsCmd "src.png" 512 512 "icon.png",
       sipsCmd "src.png" 256 256 "128x128@2x.png",
       sipsCmd "src.png" 128 128 "128x128.png",
       sipsCmd "src.png" 32 32 "32x32.png"] :=
  generate_icons_all_success envOk "src.png" rfl (fun _ _ => rfl)

/-- C2: for every existing source path, if the tool succeeds on the first
`k` invocations (0-indexed indices below `k`) and fails on invocation `k`,
`generate_icons` returns `false` after exactly `k + 1` invocations — i.e.
a failure on the (1-indexed) second entry yields `false` after exactly 2
invocations, later entries never being attempted. -/
theorem generate_icons_short_circuit (env : Env) (source : String) (k : Nat)
    (hex : env.pathExists source = true) (hk : k < 4)
    (hpre : ∀ j cmd, j < k → (env.run j cmd).returncode = 0)
    (hfail : ∀ cmd, (env.run k cmd).returncode ≠ 0) :
    (generate_icons env source).1 = false ∧
    (invokes (generate_icons env source).2).length = k + 1 := by
  interval_cases k <;>
    simp [generate_icons, iconLoop, sizes, invokes, hex, hfail, hpre]

/-- Witness for C2: failure on the second invocation (index 1) gives
`false` after exactly 2 invocations. -/
theorem generate_icons_short_circuit_witness :
    (generate_icons envFail2 "src.png").1 = false ∧
    (invokes (generate_icons envFail2 "src.png").2).length = 1 + 1 :=
  generate_icons_short_circuit envFail2 "src.png" 1 rfl (by omega)
    (fun j cmd hj => by
      have hj0 : j = 0 := by omega
      subst hj0; rfl)
    (fun cmd => by simp [envFail2])

/-- C3: for every source path that does not exist, `generate_icons`
returns `false` immediately, its trace is the single descriptive message,
and no tool invocation occurs. -/
theorem generate_icons_missing_source (env : Env) (source : String)
    (hex : env.pathExists source = false) :
    (generate_icons env source).1 = false ∧
    (generate_icons env source).2 =
      [Event.print ("Error: Source file \x27" ++ source ++
        "\x27 not found")] ∧
    invokes (generate_icons env source).2 = [] := by
  simp [generate_icons, hex, invokes]

/-- Witness for C3: the empty filesystem environment. -/
theorem generate_icons_missing_source_witness :
    (generate_icons envMissing "src.png").1 = false ∧
    (generate_icons envMissing "src.png").2 =
      [Event.print ("Error: Source file \x27" ++ "src.png" ++
        "\x27 not found")] ∧
    invokes (generate_icons envMissing "src.png").2 = [] :=
  generate_icons_missing_source envMissing "src.png" rfl

/-- C4: the process exit status is 0 iff `sys.argv` has length 2 (exactly
one positional argument) and `generate_icons` returned `true`; it is
nonzero on a usage error, a missing source, or any generation failure. -/
theorem exit_status_iff (env : Env) (argv : List String) :
    (mainBlock env argv).1 = 0 ↔
      (argv.length = 2 ∧ (generate_icons env (argv.getD 1 "")).1 = true) := by
  unfold mainBlock
  split
  · next h => simp; omega
  · next h =>
    have hl : argv.length = 2 := by omega
    dsimp only
    split
    · next hg =>
      rw [List.getD_eq_getElem _ _ (by omega)] at hg
      simp [hl, hg]
    · next hg =>
      simp only [Bool.not_eq_true] at hg
      rw [List.getD_eq_getElem _ _ (by omega)] at hg
      simp [hl, hg]

/-- Witness for C4: a valid single-argument invocation on a succeeding
environment exits with status 0. -/
theorem exit_status_iff_witness : (mainBlock envOk ["prog", "src.png"]).1 = 0 :=
  (exit_status_iff envOk ["prog", "src.png"]).mpr ⟨rfl, by decide⟩

/-- C5: for every argument vector whose length is not 2 (positional
argument count not exactly 1), the program exits with status 1, prints
exactly the usage text, and invokes the external tool zero times. -/
theorem mainBlock_usage_error (env : Env) (argv : List String)
    (h : argv.length ≠ 2) :
    (mainBlock env argv).1 = 1 ∧ (mainBlock env argv).2 = usageLines ∧
    invokes (mainBlock env argv).2 = [] := by
  simp [mainBlock, h, invokes, usageLines]

/-- Witness for C5: invocation with no positional argument. -/
theorem mainBlock_usage_error_witness :
    (mainBlock envOk ["prog"]).1 = 1 ∧
    (mainBlock envOk ["prog"]).2 = usageLines ∧
    invokes (mainBlock envOk ["prog"]).2 = [] :=
  mainBlock_usage_error envOk ["prog"] (by decide)

/-- C6: every tool invocation of a `generate_icons` run carries, for some
entry `(w, h, out)` of the size table, the target height, the target
width, the source path and the destination file name in that order
(`sips -z height width source --out out`), and the destination name holds
no path separator, so output lands in the current working directory. -/
theorem sips_invocation_args (env : Env) (source : String) (c : List String)
    (hc : c ∈ invokes (generate_icons env source).2) :
    ∃ w h out, (w, h, out) ∈ sizes ∧
      c = ["sips", "-z", toString h, toString w, source, "--out", out] ∧
      ∀ ch ∈ out.data, ch ≠ '/' := by
  obtain ⟨w, h, out, hmem, hceq⟩ := generate_invoke_shape env source c hc
  have hsep : ∀ e ∈ sizes, ∀ ch ∈ e.2.2.data, ch ≠ '/' := by decide
  exact ⟨w, h, out, hmem, by simpa [sipsCmd] using hceq, hsep _ hmem⟩

/-- Witness for C6: the first invocation of a concrete successful run. -/
theorem sips_invocation_args_witness :
    ∃ w h out, (w, h, out) ∈ sizes ∧
      sipsCmd "src.png" 512 512 "icon.png" =
        ["sips", "-z", toString h, toString w, "src.png", "--out", out] ∧
      ∀ ch ∈ out.data, ch ≠ '/' :=
  sips_invocation_args envOk "src.png"
    (sipsCmd "src.png" 512 512 "icon.png") (by decide)

/-- C7: when the tool fails on invocation `k` (after successes before it),
`generate_icons` emits — as the last line of its trace — the error line
naming the output file of entry `k` together with the diagnostic text
(`stderr`) captured from that very invocation. -/
theorem failure_diagnostic_line (env : Env) (source : String) (k : Nat)
    (hex : env.pathExists source = true) (hk : k < 4)
    (hpre : ∀ j cmd, j < k → (env.run j cmd).returncode = 0)
    (hfail : ∀ cmd, (env.run k cmd).returncode ≠ 0) :
    Event.print ("Error generating " ++ (sizes.getD k default).2.2 ++ ": " ++
        (env.run k (sipsCmd source (sizes.getD k default).1
          (sizes.getD k default).2.1 (sizes.getD k default).2.2)).stderr) ∈
      (generate_icons env source).2 ∧
    (generate_icons env source).2.getLast? =
      some (Event.print ("Error generating " ++ (sizes.getD k default).2.2 ++
        ": " ++ (env.run k (sipsCmd source (sizes.getD k default).1
          (sizes.getD k default).2.1 (sizes.getD k default).2.2)).stderr)) := by
  interval_cases k <;>
    simp [generate_icons, iconLoop, sizes, hex, hfail, hpre]

/-- Witness for C7: the environment failing on invocation 1 with
diagnostic "boom". -/
theorem failure_diagnostic_line_witness :
    Event.print ("Error generating " ++ (sizes.getD 1 default).2.2 ++ ": " ++
        (envFail2.run 1 (sipsCmd "src.png" (sizes.getD 1 default).1
          (sizes.getD 1 default).2.1 (sizes.getD 1 default).2.2)).stderr) ∈
      (generate_icons envFail2 "src.png").2 ∧
    (generate_icons envFail2 "src.png").2.getLast? =
      some (Event.print ("Error generating " ++ (sizes.getD 1 default).2.2 ++
        ": " ++ (envFail2.run 1 (sipsCmd "src.png" (sizes.getD 1 default).1
          (sizes.getD 1 default).2.1 (sizes.getD 1 default).2.2)).stderr)) :=
  failure_diagnostic_line envFail2 "src.png" 1 rfl (by omega)
    (fun j cmd hj => by
      have hj0 : j = 0 := by omega
      subst hj0; rfl)
    (fun cmd => by simp [envFail2])

/-- C8: two runs of `generate_icons` on the same existing source, each
with an always-succeeding tool, produce the identical result and the
identical full trace; in particular the invocation sequence of both runs
is exactly the `sips` command of each size-table entry in order, so both
runs write the same filenames at the same dimensions and have no side
effects beyond those invocations and the progress lines. -/
theorem generate_icons_deterministic (env1 env2 : Env) (source : String)
    (hex1 : env1.pathExists source = true)
    (hex2 : env2.pathExists source = true)
    (hrun1 : ∀ k cmd, (env1.run k cmd).returncode = 0)
    (hrun2 : ∀ k cmd, (env2.run k cmd).returncode = 0) :
    generate_icons env1 source = generate_icons env2 source ∧
    invokes (generate_icons env1 source).2 =
      sizes.map (fun e => sipsCmd source e.1 e.2.1 e.2.2) := by
  simp [generate_icons, iconLoop, sizes, invokes, hex1, hex2, hrun1, hrun2]

/-- Witness for C8: two runs in the always-succeeding environment. -/
theorem generate_icons_deterministic_witness :
    generate_icons envOk "src.png" = generate_icons envOk "src.png" ∧
    invokes (generate_icons envOk "src.png").2 =
      sizes.map (fun e => sipsCmd "src.png" e.1 e.2.1 e.2.2) :=
  generate_icons_deterministic envOk envOk "src.png" rfl rfl
    (fun _ _ => rfl) (fun _ _ => rfl)

/-- C9: the fixed size table is non-empty, its output filenames are
pairwise distinct, and every width and height is positive.  (`sizes` is a
top-level `def`, so it is a constant of the embedding, unchanged by every
operation.) -/
theorem sizes_invariant :
    sizes ≠ [] ∧ (sizes.map fun e => e.2.2).Nodup ∧
    sizes.all (fun e => 0 < e.1 && 0 < e.2.1) = true := by decide

/-- C10: the destination name (argument 6) of every tool invocation is one
of the four fixed names, for every source path whatsoever (so it is never
derived from the source path); and when the source path is itself
"icon.png" and exists, some invocation uses it both as source (argument 4)
and as destination (argument 6), overwriting it. -/
theorem dest_names_fixed :
    (∀ (env : Env) (source : String) (c : List String),
      c ∈ invokes (generate_icons env source).2 →
      c.getD 6 "" ∈ ["icon.png", "128x128@2x.png", "128x128.png",
        "32x32.png"]) ∧
    (∀ env : Env, env.pathExists "icon.png" = true →
      ∃ c ∈ invokes (generate_icons env "icon.png").2,
        c.getD 4 "" = "icon.png" ∧ c.getD 6 "" = "icon.png") := by
  constructor
  · intro env source c hc
    obtain ⟨w, h, out, hmem, rfl⟩ := generate_invoke_shape env source c hc
    have hnames : ∀ e ∈ sizes, e.2.2 ∈
        ["icon.png", "128x128@2x.png", "128x128.png", "32x32.png"] := by
      decide
    simpa [sipsCmd] using hnames _ hmem
  · intro env hex
    refine ⟨sipsCmd "icon.png" 512 512 "icon.png", ?_,
      by simp [sipsCmd], by simp [sipsCmd]⟩
    by_cases hr : (env.run 0 (sipsCmd "icon.png" 512 512 "icon.png")).returncode ≠ 0
    · simp [generate_icons, iconLoop, sizes, invokes, hex, hr]
    · simp [generate_icons, iconLoop, sizes, invokes, hex, hr]

/-- Witness for C10: both parts at concrete inputs — the first invocation
of a concrete run, and the always-succeeding environment with the source
named "icon.png". -/
theorem dest_names_fixed_witness :
    (sipsCmd "src.png" 512 512 "icon.png").getD 6 "" ∈
      ["icon.png", "128x128@2x.png", "128x128.png", "32x32.png"] ∧
    ∃ c ∈ invokes (generate_icons envOk "icon.png").2,
      c.getD 4 "" = "icon.png" ∧ c.getD 6 "" = "icon.png" :=
  ⟨dest_names_fixed.1 envOk "src.png" _ (by decide),
   dest_names_fixed.2 envOk rfl⟩

end UpdateIcon
